import Mathlib

/-!
Verification development for the smartnic-agent cloud-disk orchestrator
(`ironic_python_agent/extensions/cloud_disk.py`).

The embedding models, faithfully to the Python source:
  * name derivation: `hashlib.md5(f"{ip}_{iqn}".encode()).hexdigest()[:8]`
    with a kind prefix (an executable MD5 implementation is included);
  * the `DeviceManager` name set (`_created_devices`) as a `Finset String`
    threaded explicitly through every operation (persistence to
    `devices.json` does not change the in-memory set and is not modelled);
  * the four `RpcManager.execute_rpc_*` wrappers, including the exact
    exception flow: an inner `RpcCommandError` raised on a non-empty error
    stream is caught by the wrapper's own `except Exception` clause and
    re-wrapped with `stdout = ''` and `stderr = str(inner)`;
  * the `connect_cloud_disk` / `disconnect_cloud_disk` workflows including
    the `finally`-block rollback of `connect`.

Every workflow function additionally returns the list of external command
argument vectors it passed to `execute`, so that claims about which
commands were (or were not) invoked are expressible.
-/

namespace CloudDisk

/-! ## MD5 (executable model of `hashlib.md5(...).hexdigest()`) -/

/-- Two to the thirty-second power, the word modulus of MD5. -/
def M32 : Nat := 4294967296

/-- Rotate a 32-bit word (represented as a `Nat` below `M32`) left by `n`. -/
def rotl32 (x n : Nat) : Nat := ((x <<< n) % M32) ||| (x >>> (32 - n))

/-- UTF-8 encoding of one code point, as Python's `str.encode()` produces. -/
def utf8Bytes (c : Nat) : List Nat :=
  if c < 128 then [c]
  else if c < 2048 then [192 + c / 64, 128 + c % 64]
  else if c < 65536 then [224 + c / 4096, 128 + c / 64 % 64, 128 + c % 64]
  else [240 + c / 262144, 128 + c / 4096 % 64, 128 + c / 64 % 64, 128 + c % 64]

/-- The byte sequence of a string under UTF-8, as `str.encode()` yields. -/
def strBytes (s : String) : List Nat :=
  (s.data.map (fun c => utf8Bytes c.toNat)).flatten

/-- The sixty-four MD5 round constants (integer parts of `abs(sin(i+1)) * 2^32`). -/
def md5K : List Nat :=
  [0xd76aa478, 0xe8c7b756, 0x242070db, 0xc1bdceee,
   0xf57c0faf, 0x4787c62a, 0xa8304613, 0xfd469501,
   0x698098d8, 0x8b44f7af, 0xffff5bb1, 0x895cd7be,
   0x6b901122, 0xfd987193, 0xa679438e, 0x49b40821,
   0xf61e2562, 0xc040b340, 0x265e5a51, 0xe9b6c7aa,
   0xd62f105d, 0x02441453, 0xd8a1e681, 0xe7d3fbc8,
   0x21e1cde6, 0xc33707d6, 0xf4d50d87, 0x455a14ed,
   0xa9e3e905, 0xfcefa3f8, 0x676f02d9, 0x8d2a4c8a,
   0xfffa3942, 0x8771f681, 0x6d9d6122, 0xfde5380c,
   0xa4beea44, 0x4bdecfa9, 0xf6bb4b60, 0xbebfbc70,
   0x289b7ec6, 0xeaa127fa, 0xd4ef3085, 0x04881d05,
   0xd9d4d039, 0xe6db99e5, 0x1fa27cf8, 0xc4ac5665,
   0xf4292244, 0x432aff97, 0xab9423a7, 0xfc93a039,
   0x655b59c3, 0x8f0ccc92, 0xffeff47d, 0x85845dd1,
   0x6fa87e4f, 0xfe2ce6e0, 0xa3014314, 0x4e0811a1,
   0xf7537e82, 0xbd3af235, 0x2ad7d2bb, 0xeb86d391]

/-- The per-round left-rotation amounts of MD5. -/
def md5S : List Nat :=
  [7, 12, 17, 22, 7, 12, 17, 22, 7, 12, 17, 22, 7, 12, 17, 22,
   5, 9, 14, 20, 5, 9, 14, 20, 5, 9, 14, 20, 5, 9, 14, 20,
   4, 11, 16, 23, 4, 11, 16, 23, 4, 11, 16, 23, 4, 11, 16, 23,
   6, 10, 15, 21, 6, 10, 15, 21, 6, 10, 15, 21, 6, 10, 15, 21]

/-- The MD5 nonlinear mixing function for round `i`. -/
def md5F (i b c d : Nat) : Nat :=
  if i < 16 then (b &&& c) ||| ((b ^^^ 4294967295) &&& d)
  else if i < 32 then (d &&& b) ||| ((d ^^^ 4294967295) &&& c)
  else if i < 48 then b ^^^ c ^^^ d
  else c ^^^ (b ||| (d ^^^ 4294967295))

/-- The message-word index consumed at round `i` of MD5. -/
def md5g (i : Nat) : Nat :=
  if i < 16 then i
  else if i < 32 then (5 * i + 1) % 16
  else if i < 48 then (3 * i + 5) % 16
  else (7 * i) % 16

/-- Little-endian 32-bit word number `j` of a 64-byte block. -/
def leWord (blk : List Nat) (j : Nat) : Nat :=
  blk.getD (4 * j) 0 + 256 * blk.getD (4 * j + 1) 0 +
    65536 * blk.getD (4 * j + 2) 0 + 16777216 * blk.getD (4 * j + 3) 0

/-- One of the sixty-four MD5 rounds on the running state `(a, b, c, d)`. -/
def md5Step (blk : List Nat) (st : Nat × Nat × Nat × Nat) (i : Nat) :
    Nat × Nat × Nat × Nat :=
  let (a, b, c, d) := st
  let f := (md5F i b c d + a + md5K.getD i 0 + leWord blk (md5g i)) % M32
  (d, (b + rotl32 f (md5S.getD i 0)) % M32, b, c)

/-- MD5 compression of one 64-byte block into the chaining state. -/
def md5Block (st : Nat × Nat × Nat × Nat) (blk : List Nat) :
    Nat × Nat × Nat × Nat :=
  let (a0, b0, c0, d0) := st
  let (a, b, c, d) := (List.range 64).foldl (md5Step blk) st
  ((a0 + a) % M32, (b0 + b) % M32, (c0 + c) % M32, (d0 + d) % M32)

/-- The eight little-endian bytes of the 64-bit message bit length. -/
def md5LenBytes (bitLen : Nat) : List Nat :=
  (List.range 8).map (fun i => (bitLen >>> (8 * i)) % 256)

/-- MD5 padding: append `0x80`, zeros up to 56 mod 64, then the bit length. -/
def md5Pad (msg : List Nat) : List Nat :=
  let zeros := (119 - msg.length % 64) % 64
  msg ++ [128] ++ List.replicate zeros 0 ++ md5LenBytes (8 * msg.length)

/-- Bytes `64*i .. 64*i+63` of the padded message. -/
def md5ChunkAt (padded : List Nat) (i : Nat) : List Nat :=
  (padded.drop (64 * i)).take 64

/-- The four little-endian bytes of one 32-bit state word. -/
def wordLE (w : Nat) : List Nat :=
  [w % 256, (w >>> 8) % 256, (w >>> 16) % 256, (w >>> 24) % 256]

/-- The sixteen digest bytes of MD5 applied to a byte sequence. -/
def md5Bytes (msg : List Nat) : List Nat :=
  let padded := md5Pad msg
  let f := (List.range (padded.length / 64)).foldl
    (fun st i => md5Block st (md5ChunkAt padded i))
    (0x67452301, 0xefcdab89, 0x98badcfe, 0x10325476)
  wordLE f.1 ++ wordLE f.2.1 ++ wordLE f.2.2.1 ++ wordLE f.2.2.2

/-- The lowercase hexadecimal digit character of a value below sixteen. -/
def hexDigitChar (n : Nat) : Char :=
  "0123456789abcdef".data.getD n '0'

/-- Lowercase hexadecimal rendering of a byte list, two characters per byte. -/
def bytesToHex : List Nat → List Char
  | [] => []
  | b :: bs => hexDigitChar (b / 16 % 16) :: hexDigitChar (b % 16) :: bytesToHex bs

/-- Model of `hashlib.md5(s.encode()).hexdigest()`. -/
def md5hexdigest (s : String) : String :=
  String.mk (bytesToHex (md5Bytes (strBytes s)))

/-! ## Name derivation (`DeviceManager._find_unique_name`) -/

/-- Model of `DeviceManager._find_unique_name(prefix, ip, iqn)`:
`prefix + hashlib.md5(f"{ip}_{iqn}".encode()).hexdigest()[:8]`.
The Python parameter `prefix` is named `pfx` here. -/
def find_unique_name (pfx ip iqn : String) : String :=
  pfx ++ String.mk ((md5hexdigest (ip ++ "_" ++ iqn)).data.take 8)

/-! ## Name registry (`DeviceManager`)

The set `self._created_devices` is modelled as a `Finset String` passed in
and (where the Python method could mutate `self`) returned. `persist_devices`
and `load_devices` touch `devices.json` only; they never change the
in-memory set, so they do not appear in the state transitions. -/

/-- The name set of `DeviceManager._created_devices`. -/
abbrev NameSet := Finset String

/-- Model of `DeviceManager._generate_unique_name(prefix, ip, iqn)`: derives
the name exactly as `_find_unique_name` does (the two Python bodies are
textually identical), raises `ValueError` when the name is already in the
set, and never mutates the set (the returned component is the input set). -/
def generate_unique_name (pfx ip iqn : String) (st : NameSet) :
    Except String String × NameSet :=
  let unique_name := find_unique_name pfx ip iqn
  if unique_name ∈ st then
    (.error ("Device name '" ++ unique_name ++ "' already exists."), st)
  else
    (.ok unique_name, st)

/-- Model of `DeviceManager.check_iscsi_name(ip, iqn)`: raises `ValueError`
when the derived iscsi name is absent from the set; read-only. -/
def check_iscsi_name (ip iqn : String) (st : NameSet) : Except String String :=
  let iscsi_name := find_unique_name "iscsi" ip iqn
  if iscsi_name ∈ st then .ok iscsi_name
  else .error ("iSCSI name '" ++ iscsi_name ++ "' does not exist.")

/-- Model of `DeviceManager.check_blk_name(ip, iqn)`: raises `ValueError`
when the derived blk name is absent from the set; read-only. -/
def check_blk_name (ip iqn : String) (st : NameSet) : Except String String :=
  let blk_name := find_unique_name "blk" ip iqn
  if blk_name ∈ st then .ok blk_name
  else .error ("Block device name '" ++ blk_name ++ "' does not exist.")

/-- Model of `DeviceManager.add_device_name`: insert, then persist. -/
def add_device_name (st : NameSet) (device_name : String) : NameSet :=
  insert device_name st

/-- Model of `DeviceManager.remove_device_name`: `set.discard`, then persist
(removing an absent name is a no-op, exactly as `Finset.erase`). -/
def remove_device_name (st : NameSet) (device_name : String) : NameSet :=
  st.erase device_name

/-! ## Command execution outcomes -/

/-- Modelled from the spec: the Command Executor (`execute`, imported from
`ironic_python_agent.utils`, which is not under `src/`) spawns the external
command, captures both streams in full and returns them as a pair
`(stdout, stderr)`, or raises when the invocation itself fails to run.
The process exit code is carried on the `ran` constructor so that theorems
can state that the failure classification ignores it. -/
inductive ExecOutcome
  | ran (exitCode : Nat) (stdout stderr : String)
  | raised (err : String)
deriving DecidableEq

/-- Whether an invocation outcome is classified as a failure by the
`execute_rpc_*` wrappers: a non-empty error stream, or a raised launch
error. -/
def execFails : ExecOutcome → Bool
  | .ran _ _ stderr => stderr != ""
  | .raised _ => true

/-- The `cmd_result` dictionary attached to an `RpcCommandError`. -/
structure CmdResult where
  stdout : String
  stderr : String
deriving DecidableEq

/-- The two exception kinds the orchestrator distinguishes: `ValueError`
(raised by the name registry) and `RpcCommandError` (raised by the RPC
wrappers, carrying a message and the `cmd_result` dictionary). -/
inductive PyErr
  | valueError (msg : String)
  | rpcCommandError (msg : String) (cmd_result : CmdResult)
deriving DecidableEq

/-- Rendering of the `cmd_result` dictionary inside `str(e)` (Python's dict
repr, with string quoting simplified to plain single quotes). -/
def cmdResultStr (r : CmdResult) : String :=
  "\x7b'stdout': '" ++ r.stdout ++ "', 'stderr': '" ++ r.stderr ++ "'\x7d"

/-- Model of `str(e)`: `RpcCommandError.__str__` appends
`". Cmd Result: "` and the dictionary; `ValueError` renders its message. -/
def pyStr : PyErr → String
  | .valueError m => m
  | .rpcCommandError m r => m ++ ". Cmd Result: " ++ cmdResultStr r

/-! ## RPC wrappers (`RpcManager.execute_rpc_*`)

Each wrapper returns its Python result (or raised exception), the name set
after the call, and the list of external command argument vectors passed to
`execute` during the call. The exception flow is reproduced exactly: the
name-derivation `ValueError` is raised before the `try` block and escapes
unwrapped; inside the `try`, a non-empty error stream raises an inner
`RpcCommandError`, which the wrapper's own `except Exception` clause catches
and re-wraps with `stdout = ''` and `stderr = str(inner)`; a launch failure
is wrapped the same way. The name set is mutated only on the success path. -/

/-- The argument vector of the bdev-create command. -/
def bdev_iscsi_create_cmd (iscsi_value iqn ip : String) : List String :=
  ["nbl_stor_rpc.py", "bdev_iscsi_create", "-b", iscsi_value, "-i",
   iqn ++ "/0", "--url", "iscsi://" ++ ip ++ "/" ++ iqn ++ "/0"]

/-- The argument vector of the front-end-create command. -/
def virtio_blk_create_cmd (blk_value iscsi_value : String) : List String :=
  ["nbl_rpc.py", "emulator_virtio_blk_device_create", "--name", blk_value,
   "--cpumask", "0x2", "--num_queues", "1", "--bdev_name", iscsi_value,
   "--rom_idx", "0"]

/-- The argument vector of the front-end-delete command. -/
def virtio_blk_delete_cmd (blk_name : String) : List String :=
  ["nbl_rpc.py", "emulator_virtio_blk_device_delete", "--name", blk_name]

/-- The argument vector of the bdev-delete command. -/
def bdev_iscsi_delete_cmd (iscsi_name : String) : List String :=
  ["nbl_stor_rpc.py", "bdev_iscsi_delete", iscsi_name]

/-- Model of `RpcManager.execute_rpc_create_iscsi_bdev(iqn, ip)`. -/
def execute_rpc_create_iscsi_bdev (exec : ExecOutcome) (st : NameSet)
    (iqn ip : String) : Except PyErr String × NameSet × List (List String) :=
  match generate_unique_name "iscsi" ip iqn st with
  | (.error m, st') => (.error (.valueError m), st', [])
  | (.ok iscsi_value, st') =>
    let cmd := bdev_iscsi_create_cmd iscsi_value iqn ip
    let wrap : String → Except PyErr String := fun inner =>
      .error (.rpcCommandError
        ("Failed to execute bdev_iscsi_create command for IQN " ++ iqn ++
          " and IP " ++ ip ++ ": " ++ inner) ⟨"", inner⟩)
    match exec with
    | .raised err => (wrap err, st', [cmd])
    | .ran _ stdout stderr =>
      if stderr ≠ "" then
        let inner := PyErr.rpcCommandError
          ("Error executing bdev_iscsi_create command. Error: " ++ stderr)
          ⟨stdout, stderr⟩
        (wrap (pyStr inner), st', [cmd])
      else
        (.ok iscsi_value, add_device_name st' iscsi_value, [cmd])

/-- Model of
`RpcManager.execute_rpc_emulator_virtio_blk_device_create(iscsi_value, ip, iqn)`. -/
def execute_rpc_emulator_virtio_blk_device_create (exec : ExecOutcome)
    (st : NameSet) (iscsi_value ip iqn : String) :
    Except PyErr String × NameSet × List (List String) :=
  match generate_unique_name "blk" ip iqn st with
  | (.error m, st') => (.error (.valueError m), st', [])
  | (.ok blk_value, st') =>
    let cmd := virtio_blk_create_cmd blk_value iscsi_value
    let wrap : String → Except PyErr String := fun inner =>
      .error (.rpcCommandError
        ("Failed to execute emulator_virtio_blk_device_create command for iscsi_value "
          ++ iscsi_value ++ ": " ++ inner) ⟨"", inner⟩)
    match exec with
    | .raised err => (wrap err, st', [cmd])
    | .ran _ stdout stderr =>
      if stderr ≠ "" then
        let inner := PyErr.rpcCommandError
          ("Error executing emulator_virtio_blk_device_create command. Error: "
            ++ stderr) ⟨stdout, stderr⟩
        (wrap (pyStr inner), st', [cmd])
      else
        (.ok blk_value, add_device_name st' blk_value, [cmd])

/-- Model of
`RpcManager.execute_rpc_emulator_virtio_blk_device_delete(blk_name)`. -/
def execute_rpc_emulator_virtio_blk_device_delete (exec : ExecOutcome)
    (st : NameSet) (blk_name : String) :
    Except PyErr Unit × NameSet × List (List String) :=
  let cmd := virtio_blk_delete_cmd blk_name
  let wrap : String → Except PyErr Unit := fun inner =>
    .error (.rpcCommandError
      ("Failed to execute emulator_virtio_blk_device_delete command for block device name "
        ++ blk_name ++ ": " ++ inner) ⟨"", inner⟩)
  match exec with
  | .raised err => (wrap err, st, [cmd])
  | .ran _ stdout stderr =>
    if stderr ≠ "" then
      let inner := PyErr.rpcCommandError
        ("Error executing emulator_virtio_blk_device_delete command. Error: "
          ++ stderr) ⟨stdout, stderr⟩
      (wrap (pyStr inner), st, [cmd])
    else
      (.ok (), remove_device_name st blk_name, [cmd])

/-- Model of `RpcManager.execute_rpc_bdev_iscsi_delete(iscsi_name)`. -/
def execute_rpc_bdev_iscsi_delete (exec : ExecOutcome) (st : NameSet)
    (iscsi_name : String) :
    Except PyErr Unit × NameSet × List (List String) :=
  let cmd := bdev_iscsi_delete_cmd iscsi_name
  let wrap : String → Except PyErr Unit := fun inner =>
    .error (.rpcCommandError
      ("Failed to execute bdev_iscsi_delete command for iSCSI name "
        ++ iscsi_name ++ ": " ++ inner) ⟨"", inner⟩)
  match exec with
  | .raised err => (wrap err, st, [cmd])
  | .ran _ stdout stderr =>
    if stderr ≠ "" then
      let inner := PyErr.rpcCommandError
        ("Error executing bdev_iscsi_delete command. Error: " ++ stderr)
        ⟨stdout, stderr⟩
      (wrap (pyStr inner), st, [cmd])
    else
      (.ok (), remove_device_name st iscsi_name, [cmd])

/-! ## Orchestrator (`CloudDiskExtension`) -/

/-- The outcomes of the four external commands a single workflow invocation
may reach, one `ExecOutcome` per command slot. -/
structure Env where
  createBdev : ExecOutcome
  createBlk : ExecOutcome
  deleteBlk : ExecOutcome
  deleteBdev : ExecOutcome
deriving DecidableEq

/-- The caller-visible outcome of a workflow: the success dictionary, or a
raised `werkzeug` `BadRequest` with its description. The `BadRequest` in
the Python code carries only the description string; the model additionally
records the exception that triggered it (which the code interpolates into
its log message) so that theorems can refer to the originating failure. -/
inductive AgentResult
  | okDict (result : String)
  | badRequest (description : String) (orig : PyErr)
deriving DecidableEq

/-- The `except` clauses of `connect_cloud_disk`: `RpcCommandError` maps to
`BadRequest('Cloud disk connection failed.')`, `ValueError` to
`BadRequest('Command failed with error')`. -/
def connectErrResult : PyErr → AgentResult
  | .rpcCommandError m r => .badRequest "Cloud disk connection failed." (.rpcCommandError m r)
  | .valueError m => .badRequest "Command failed with error" (.valueError m)

/-- The `except` clauses of `disconnect_cloud_disk`: `RpcCommandError` maps
to `BadRequest('Cloud disk disconnection failed.')`, `ValueError` to
`BadRequest('Command failed with error.')`. -/
def disconnectErrResult : PyErr → AgentResult
  | .rpcCommandError m r => .badRequest "Cloud disk disconnection failed." (.rpcCommandError m r)
  | .valueError m => .badRequest "Command failed with error." (.valueError m)

/-- Model of `CloudDiskExtension.connect_cloud_disk(iqn, ip)`.

Control flow reproduced from the source: step 1 creates the iscsi bdev and
step 2 the virtio-blk front end; if either raises, `iscsi_value` and
`blk_value` retain their values at the point of the raise, and the
`finally` block rolls back (invokes `execute_rpc_bdev_iscsi_delete`)
exactly when `iscsi_value` is set and `blk_value` is not, swallowing every
exception of the rollback itself. A raise inside step 1 or step 2 leaves
the corresponding variable `None`, so a step-1 failure performs no
rollback. Derived names are non-empty strings, hence truthy. -/
def connect_cloud_disk (env : Env) (st : NameSet) (iqn ip : String) :
    AgentResult × NameSet × List (List String) :=
  match execute_rpc_create_iscsi_bdev env.createBdev st iqn ip with
  | (.error e, st1, tr1) =>
    (connectErrResult e, st1, tr1)
  | (.ok iscsi_value, st1, tr1) =>
    match execute_rpc_emulator_virtio_blk_device_create env.createBlk st1
        iscsi_value ip iqn with
    | (.ok _, st2, tr2) =>
      (.okDict "Cloud disk connected successfully.", st2, tr1 ++ tr2)
    | (.error e, st2, tr2) =>
      let rb := execute_rpc_bdev_iscsi_delete env.deleteBdev st2 iscsi_value
      (connectErrResult e, rb.2.1, tr1 ++ tr2 ++ rb.2.2)

/-- Model of `CloudDiskExtension.disconnect_cloud_disk(iqn, ip)`.

`print_all_devices` reads the set and invokes no external command, so it
does not appear; `time.sleep(10)` between the two deletions is a pure
delay with no state effect and is not modelled (the embedding has no
notion of time). -/
def disconnect_cloud_disk (env : Env) (st : NameSet) (iqn ip : String) :
    AgentResult × NameSet × List (List String) :=
  match check_blk_name ip iqn st with
  | .error m => (disconnectErrResult (.valueError m), st, [])
  | .ok blk_name =>
    match execute_rpc_emulator_virtio_blk_device_delete env.deleteBlk st
        blk_name with
    | (.error e, st1, tr1) => (disconnectErrResult e, st1, tr1)
    | (.ok _, st1, tr1) =>
      match check_iscsi_name ip iqn st1 with
      | .error m => (disconnectErrResult (.valueError m), st1, tr1)
      | .ok iscsi_name =>
        match execute_rpc_bdev_iscsi_delete env.deleteBdev st1 iscsi_name with
        | (.error e, st2, tr2) => (disconnectErrResult e, st2, tr1 ++ tr2)
        | (.ok _, st2, tr2) =>
          (.okDict "Cloud disk disconnected successfully.", st2, tr1 ++ tr2)

/-! ## Helper lemmas about the digest and derived names -/

/-- Hex rendering yields two characters per byte. -/
theorem bytesToHex_length (bs : List Nat) :
    (bytesToHex bs).length = 2 * bs.length := by
  induction bs with
  | nil => simp [bytesToHex]
  | cons b bs ih => simp [bytesToHex, ih]; ring

/-- Every value below sixteen renders to a lowercase hexadecimal digit. -/
theorem hexDigitChar_mem : ∀ n < 16, hexDigitChar n ∈ "0123456789abcdef".data := by
  decide

/-- Every character of a hex rendering is a lowercase hexadecimal digit. -/
theorem bytesToHex_hex (bs : List Nat) :
    ∀ c ∈ bytesToHex bs, c ∈ "0123456789abcdef".data := by
  induction bs with
  | nil => simp [bytesToHex]
  | cons b bs ih =>
    intro c hc
    simp only [bytesToHex, List.mem_cons] at hc
    rcases hc with h | h | h
    · exact h ▸ hexDigitChar_mem _ (Nat.mod_lt _ (by norm_num))
    · exact h ▸ hexDigitChar_mem _ (Nat.mod_lt _ (by norm_num))
    · exact ih c h

/-- The MD5 digest is sixteen bytes long, whatever the message. -/
theorem md5Bytes_length (msg : List Nat) : (md5Bytes msg).length = 16 := by
  simp [md5Bytes, wordLE]

/-- The character data of the model hexdigest. -/
theorem md5hexdigest_data (s : String) :
    (md5hexdigest s).data = bytesToHex (md5Bytes (strBytes s)) := rfl

/-- The model hexdigest is a fixed-length string of 32 characters. -/
theorem md5hexdigest_length (s : String) : (md5hexdigest s).length = 32 := by
  show (md5hexdigest s).data.length = 32
  rw [md5hexdigest_data, bytesToHex_length, md5Bytes_length]

/-- A derived name is always the prefix length plus eight characters long. -/
theorem find_unique_name_length (pfx ip iqn : String) :
    (find_unique_name pfx ip iqn).length = pfx.length + 8 := by
  have h32 : (md5hexdigest (ip ++ "_" ++ iqn)).data.length = 32 :=
    md5hexdigest_length (ip ++ "_" ++ iqn)
  simp [find_unique_name, String.length_append, String.length_mk,
    List.length_take, h32]

/-- Names of kind "iscsi" and kind "blk" never coincide: they have
different lengths (13 versus 11 characters). -/
theorem iscsi_ne_blk (ip iqn ip' iqn' : String) :
    find_unique_name "iscsi" ip iqn ≠ find_unique_name "blk" ip' iqn' := by
  intro h
  have h1 := congrArg String.length h
  rw [find_unique_name_length, find_unique_name_length] at h1
  revert h1
  decide

/-- An invocation outcome that is not classified as a failure is a
completed run with an empty error stream. -/
theorem execFails_eq_false (o : ExecOutcome) (h : execFails o = false) :
    ∃ ec out, o = .ran ec out "" := by
  cases o with
  | ran ec out serr =>
    simp only [execFails, bne_eq_false_iff_eq] at h
    exact ⟨ec, out, by rw [h]⟩
  | raised e => simp [execFails] at h

/-! ## Characterization lemmas for the RPC wrappers -/

/-- Step 1 of attach under a name collision: `ValueError` escapes before any
command is invoked, and the set is untouched. -/
theorem create_iscsi_collision (o : ExecOutcome) (st : NameSet) (iqn ip : String)
    (h : find_unique_name "iscsi" ip iqn ∈ st) :
    execute_rpc_create_iscsi_bdev o st iqn ip =
      (.error (.valueError ("Device name '" ++ find_unique_name "iscsi" ip iqn ++
          "' already exists.")), st, []) := by
  simp [execute_rpc_create_iscsi_bdev, generate_unique_name, h]

/-- Step 1 of attach on a clean run with empty error stream: the name comes
back and is recorded. -/
theorem create_iscsi_ok (ec : Nat) (out : String) (st : NameSet) (iqn ip : String)
    (h : find_unique_name "iscsi" ip iqn ∉ st) :
    execute_rpc_create_iscsi_bdev (.ran ec out "") st iqn ip =
      (.ok (find_unique_name "iscsi" ip iqn),
       insert (find_unique_name "iscsi" ip iqn) st,
       [bdev_iscsi_create_cmd (find_unique_name "iscsi" ip iqn) iqn ip]) := by
  simp [execute_rpc_create_iscsi_bdev, generate_unique_name, h, add_device_name]

/-- Step 1 of attach on a failing invocation: one command was invoked, an
`RpcCommandError` escapes, and the set is untouched. -/
theorem create_iscsi_fail (o : ExecOutcome) (st : NameSet) (iqn ip : String)
    (h : find_unique_name "iscsi" ip iqn ∉ st) (hf : execFails o = true) :
    ∃ m cr, execute_rpc_create_iscsi_bdev o st iqn ip =
      (.error (.rpcCommandError m cr), st,
       [bdev_iscsi_create_cmd (find_unique_name "iscsi" ip iqn) iqn ip]) := by
  cases o with
  | raised err =>
    exact ⟨_, _, by simp [execute_rpc_create_iscsi_bdev, generate_unique_name, h]; exact ⟨rfl, rfl⟩⟩
  | ran ec out serr =>
    have hs : serr ≠ "" := by simpa [execFails] using hf
    exact ⟨_, _, by simp [execute_rpc_create_iscsi_bdev, generate_unique_name, h, hs]; exact ⟨rfl, rfl⟩⟩

/-- Step 2 of attach under a name collision: `ValueError` escapes before any
command is invoked, and the set is untouched. -/
theorem create_blk_collision (o : ExecOutcome) (st : NameSet)
    (iscsi_value ip iqn : String) (h : find_unique_name "blk" ip iqn ∈ st) :
    execute_rpc_emulator_virtio_blk_device_create o st iscsi_value ip iqn =
      (.error (.valueError ("Device name '" ++ find_unique_name "blk" ip iqn ++
          "' already exists.")), st, []) := by
  simp [execute_rpc_emulator_virtio_blk_device_create, generate_unique_name, h]

/-- Step 2 of attach on a clean run with empty error stream. -/
theorem create_blk_ok (ec : Nat) (out : String) (st : NameSet)
    (iscsi_value ip iqn : String) (h : find_unique_name "blk" ip iqn ∉ st) :
    execute_rpc_emulator_virtio_blk_device_create (.ran ec out "") st iscsi_value ip iqn =
      (.ok (find_unique_name "blk" ip iqn),
       insert (find_unique_name "blk" ip iqn) st,
       [virtio_blk_create_cmd (find_unique_name "blk" ip iqn) iscsi_value]) := by
  simp [execute_rpc_emulator_virtio_blk_device_create, generate_unique_name, h,
    add_device_name]

/-- Step 2 of attach on a failing invocation. -/
theorem create_blk_fail (o : ExecOutcome) (st : NameSet)
    (iscsi_value ip iqn : String) (h : find_unique_name "blk" ip iqn ∉ st)
    (hf : execFails o = true) :
    ∃ m cr, execute_rpc_emulator_virtio_blk_device_create o st iscsi_value ip iqn =
      (.error (.rpcCommandError m cr), st,
       [virtio_blk_create_cmd (find_unique_name "blk" ip iqn) iscsi_value]) := by
  cases o with
  | raised err =>
    exact ⟨_, _, by simp [execute_rpc_emulator_virtio_blk_device_create,
      generate_unique_name, h]; exact ⟨rfl, rfl⟩⟩
  | ran ec out serr =>
    have hs : serr ≠ "" := by simpa [execFails] using hf
    exact ⟨_, _, by simp [execute_rpc_emulator_virtio_blk_device_create,
      generate_unique_name, h, hs]; exact ⟨rfl, rfl⟩⟩

/-- Front-end delete on a clean run: the blk name is released. -/
theorem delete_blk_ok (ec : Nat) (out : String) (st : NameSet) (blk_name : String) :
    execute_rpc_emulator_virtio_blk_device_delete (.ran ec out "") st blk_name =
      (.ok (), st.erase blk_name, [virtio_blk_delete_cmd blk_name]) := by
  simp [execute_rpc_emulator_virtio_blk_device_delete, remove_device_name]

/-- Front-end delete on a failing invocation: the set is untouched. -/
theorem delete_blk_fail (o : ExecOutcome) (st : NameSet) (blk_name : String)
    (hf : execFails o = true) :
    ∃ m cr, execute_rpc_emulator_virtio_blk_device_delete o st blk_name =
      (.error (.rpcCommandError m cr), st, [virtio_blk_delete_cmd blk_name]) := by
  cases o with
  | raised err =>
    exact ⟨_, _, by simp [execute_rpc_emulator_virtio_blk_device_delete]; exact ⟨rfl, rfl⟩⟩
  | ran ec out serr =>
    have hs : serr ≠ "" := by simpa [execFails] using hf
    exact ⟨_, _, by simp [execute_rpc_emulator_virtio_blk_device_delete, hs]; exact ⟨rfl, rfl⟩⟩

/-- Backing-store delete on a clean run: the iscsi name is released. -/
theorem delete_bdev_ok (ec : Nat) (out : String) (st : NameSet) (iscsi_name : String) :
    execute_rpc_bdev_iscsi_delete (.ran ec out "") st iscsi_name =
      (.ok (), st.erase iscsi_name, [bdev_iscsi_delete_cmd iscsi_name]) := by
  simp [execute_rpc_bdev_iscsi_delete, remove_device_name]

/-- Backing-store delete on a failing invocation: the set is untouched. -/
theorem delete_bdev_fail (o : ExecOutcome) (st : NameSet) (iscsi_name : String)
    (hf : execFails o = true) :
    ∃ m cr, execute_rpc_bdev_iscsi_delete o st iscsi_name =
      (.error (.rpcCommandError m cr), st, [bdev_iscsi_delete_cmd iscsi_name]) := by
  cases o with
  | raised err =>
    exact ⟨_, _, by simp [execute_rpc_bdev_iscsi_delete]; exact ⟨rfl, rfl⟩⟩
  | ran ec out serr =>
    have hs : serr ≠ "" := by simpa [execFails] using hf
    exact ⟨_, _, by simp [execute_rpc_bdev_iscsi_delete, hs]; exact ⟨rfl, rfl⟩⟩

/-- The backing-store delete wrapper always invokes exactly its one command,
whatever the outcome. -/
theorem delete_bdev_trace (o : ExecOutcome) (st : NameSet) (iscsi_name : String) :
    (execute_rpc_bdev_iscsi_delete o st iscsi_name).2.2 =
      [bdev_iscsi_delete_cmd iscsi_name] := by
  cases o with
  | raised err => simp [execute_rpc_bdev_iscsi_delete]
  | ran ec out serr =>
    by_cases hs : serr = "" <;> simp [execute_rpc_bdev_iscsi_delete, hs]

/-- The iscsi-create wrapper reports an error exactly when the invocation is
classified as failing, provided the derived name was free. -/
theorem create_iscsi_error_iff (o : ExecOutcome) (st : NameSet) (iqn ip : String)
    (hi : find_unique_name "iscsi" ip iqn ∉ st) :
    (∃ e, (execute_rpc_create_iscsi_bdev o st iqn ip).1 = .error e) ↔
      execFails o = true := by
  constructor
  · rintro ⟨e, he⟩
    by_contra hf
    obtain ⟨ec, out, rfl⟩ := execFails_eq_false o (by simpa using hf)
    rw [create_iscsi_ok ec out st iqn ip hi] at he
    simp at he
  · intro hf
    obtain ⟨m, cr, heq⟩ := create_iscsi_fail o st iqn ip hi hf
    exact ⟨_, by rw [heq]⟩

/-- The blk-create wrapper reports an error exactly when the invocation is
classified as failing, provided the derived name was free. -/
theorem create_blk_error_iff (o : ExecOutcome) (st : NameSet)
    (iscsi_value ip iqn : String) (hb : find_unique_name "blk" ip iqn ∉ st) :
    (∃ e, (execute_rpc_emulator_virtio_blk_device_create o st iscsi_value ip iqn).1 = .error e) ↔
      execFails o = true := by
  constructor
  · rintro ⟨e, he⟩
    by_contra hf
    obtain ⟨ec, out, rfl⟩ := execFails_eq_false o (by simpa using hf)
    rw [create_blk_ok ec out st iscsi_value ip iqn hb] at he
    simp at he
  · intro hf
    obtain ⟨m, cr, heq⟩ := create_blk_fail o st iscsi_value ip iqn hb hf
    exact ⟨_, by rw [heq]⟩

/-- The blk-delete wrapper reports an error exactly when the invocation is
classified as failing. -/
theorem delete_blk_error_iff (o : ExecOutcome) (st : NameSet) (blk_name : String) :
    (∃ e, (execute_rpc_emulator_virtio_blk_device_delete o st blk_name).1 = .error e) ↔
      execFails o = true := by
  constructor
  · rintro ⟨e, he⟩
    by_contra hf
    obtain ⟨ec, out, rfl⟩ := execFails_eq_false o (by simpa using hf)
    rw [delete_blk_ok ec out st blk_name] at he
    simp at he
  · intro hf
    obtain ⟨m, cr, heq⟩ := delete_blk_fail o st blk_name hf
    exact ⟨_, by rw [heq]⟩

/-- The bdev-delete wrapper reports an error exactly when the invocation is
classified as failing. -/
theorem delete_bdev_error_iff (o : ExecOutcome) (st : NameSet) (iscsi_name : String) :
    (∃ e, (execute_rpc_bdev_iscsi_delete o st iscsi_name).1 = .error e) ↔
      execFails o = true := by
  constructor
  · rintro ⟨e, he⟩
    by_contra hf
    obtain ⟨ec, out, rfl⟩ := execFails_eq_false o (by simpa using hf)
    rw [delete_bdev_ok ec out st iscsi_name] at he
    simp at he
  · intro hf
    obtain ⟨m, cr, heq⟩ := delete_bdev_fail o st iscsi_name hf
    exact ⟨_, by rw [heq]⟩

/-! ## Claim theorems -/

/-- C3: name derivation is a pure deterministic function equal to the kind
prefix prepended to the first 8 characters of the MD5 hexdigest (a
fixed-length, 32-character digest of hexadecimal characters) of the string
`"<address>_<qualifiedName>"`; names derived with the "iscsi" kind never
equal names derived with the "blk" kind (their lengths, 13 and 11, differ).
Determinism holds definitionally, `find_unique_name` being a function of
its arguments alone. -/
theorem c3_name_derivation (pfx ip iqn a q a' q' : String) :
    find_unique_name pfx ip iqn =
      pfx ++ String.mk ((md5hexdigest (ip ++ "_" ++ iqn)).data.take 8)
    ∧ (md5hexdigest (ip ++ "_" ++ iqn)).length = 32
    ∧ (∀ c ∈ (md5hexdigest (ip ++ "_" ++ iqn)).data, c ∈ "0123456789abcdef".data)
    ∧ find_unique_name "iscsi" a q ≠ find_unique_name "blk" a' q' := by
  refine ⟨rfl, md5hexdigest_length _, ?_, iscsi_ne_blk a q a' q'⟩
  rw [md5hexdigest_data]
  exact bytesToHex_hex _

/-- C6: `_generate_unique_name` (the allocate operation) fails with the
name-collision `ValueError` exactly when the derived name is already in the
name set, returns the derived name exactly when it is not, and in both
cases leaves the name set unchanged. -/
theorem c6_allocate_raises_iff (pfx ip iqn : String) (st : NameSet) :
    ((∃ m, (generate_unique_name pfx ip iqn st).1 = .error m) ↔
      find_unique_name pfx ip iqn ∈ st)
    ∧ ((generate_unique_name pfx ip iqn st).1 = .ok (find_unique_name pfx ip iqn) ↔
      find_unique_name pfx ip iqn ∉ st)
    ∧ (generate_unique_name pfx ip iqn st).2 = st := by
  by_cases h : find_unique_name pfx ip iqn ∈ st <;>
    simp [generate_unique_name, h]

/-- C5: disconnect of an identity whose derived names are absent from the
name set fails with the `NotFound` `ValueError` branch of step 1 (mapped to
`BadRequest('Command failed with error.')`), invokes no external command,
and leaves the name set unchanged. -/
theorem c5_disconnect_unknown (env : Env) (st : NameSet) (iqn ip : String)
    (_hi : find_unique_name "iscsi" ip iqn ∉ st)
    (hb : find_unique_name "blk" ip iqn ∉ st) :
    ∃ m, disconnect_cloud_disk env st iqn ip =
      (.badRequest "Command failed with error." (.valueError m), st, []) := by
  refine ⟨"Block device name '" ++ find_unique_name "blk" ip iqn ++
    "' does not exist.", ?_⟩
  simp [disconnect_cloud_disk, check_blk_name, hb, disconnectErrResult]

/-- C10: name derivation is not injective across identities: the distinct
identities (address "a_b", qualified name "c") and (address "a", qualified
name "b_c") concatenate to the same hashed string "a_b_c", so both kinds of
derived names coincide, and once the first identity is attached, attaching
the second always fails with the collision `ValueError` at step 1,
whatever the command outcomes. -/
theorem c10_derivation_not_injective :
    (("a_b", "c") : String × String) ≠ ("a", "b_c")
    ∧ find_unique_name "iscsi" "a_b" "c" = find_unique_name "iscsi" "a" "b_c"
    ∧ find_unique_name "blk" "a_b" "c" = find_unique_name "blk" "a" "b_c"
    ∧ ∀ env : Env, ∃ m,
        (connect_cloud_disk env
          (connect_cloud_disk
            ⟨.ran 0 "" "", .ran 0 "" "", .ran 0 "" "", .ran 0 "" ""⟩
            ∅ "c" "a_b").2.1
          "b_c" "a").1 =
        .badRequest "Command failed with error" (.valueError m) := by
  refine ⟨by decide, by decide, by decide, ?_⟩
  intro env
  have hset : (connect_cloud_disk
      ⟨.ran 0 "" "", .ran 0 "" "", .ran 0 "" "", .ran 0 "" ""⟩ ∅ "c" "a_b").2.1 =
      {find_unique_name "blk" "a_b" "c", find_unique_name "iscsi" "a_b" "c"} := by
    decide
  rw [hset]
  have h := create_iscsi_collision env.createBdev
    {find_unique_name "blk" "a_b" "c", find_unique_name "iscsi" "a_b" "c"}
    "b_c" "a" (by decide)
  refine ⟨"Device name '" ++ find_unique_name "iscsi" "a" "b_c" ++
    "' already exists.", ?_⟩
  simp [connect_cloud_disk, h, connectErrResult]

/-- C7: a wrapper around a command invocation reports an error exactly when
the invoked command's error stream is non-empty or the invocation raised
(failed to launch); the process exit code plays no role. Every such failure
is the single `RpcCommandError` kind, and for a launch failure the launch
error stands in the error-stream slot of the carried `cmd_result`. -/
theorem c7_executor_failure_classification (o : ExecOutcome) (st : NameSet)
    (iqn ip name lerr out out' serr : String) (ec ec' : Nat)
    (hi : find_unique_name "iscsi" ip iqn ∉ st)
    (hb : find_unique_name "blk" ip iqn ∉ st) :
    ((∃ e, (execute_rpc_create_iscsi_bdev o st iqn ip).1 = .error e) ↔
      execFails o = true)
    ∧ ((∃ e, (execute_rpc_emulator_virtio_blk_device_create o st name ip iqn).1 =
        .error e) ↔ execFails o = true)
    ∧ ((∃ e, (execute_rpc_emulator_virtio_blk_device_delete o st name).1 =
        .error e) ↔ execFails o = true)
    ∧ ((∃ e, (execute_rpc_bdev_iscsi_delete o st name).1 = .error e) ↔
      execFails o = true)
    ∧ (∀ e, (execute_rpc_create_iscsi_bdev o st iqn ip).1 = .error e →
        ∃ m cr, e = .rpcCommandError m cr)
    ∧ (∀ e, (execute_rpc_bdev_iscsi_delete o st name).1 = .error e →
        ∃ m cr, e = .rpcCommandError m cr)
    ∧ (∃ m, (execute_rpc_bdev_iscsi_delete (.raised lerr) st name).1 =
        .error (.rpcCommandError m ⟨"", lerr⟩))
    ∧ execFails (.ran ec out serr) = execFails (.ran ec' out' serr) := by
  refine ⟨create_iscsi_error_iff o st iqn ip hi,
          create_blk_error_iff o st name ip iqn hb,
          delete_blk_error_iff o st name,
          delete_bdev_error_iff o st name, ?_, ?_, ?_, rfl⟩
  · intro e he
    have hf : execFails o = true := (create_iscsi_error_iff o st iqn ip hi).mp ⟨e, he⟩
    obtain ⟨m, cr, heq⟩ := create_iscsi_fail o st iqn ip hi hf
    rw [heq] at he
    simp only [Except.error.injEq] at he
    exact ⟨m, cr, he.symm⟩
  · intro e he
    have hf : execFails o = true := (delete_bdev_error_iff o st name).mp ⟨e, he⟩
    obtain ⟨m, cr, heq⟩ := delete_bdev_fail o st name hf
    rw [heq] at he
    simp only [Except.error.injEq] at he
    exact ⟨m, cr, he.symm⟩
  · exact ⟨"Failed to execute bdev_iscsi_delete command for iSCSI name " ++
      name ++ ": " ++ lerr, by simp [execute_rpc_bdev_iscsi_delete]⟩

/-- C8: in every workflow step, a name is inserted only after the
corresponding creation command succeeded (empty error stream), removed only
after the corresponding deletion command succeeded, and no step mutates the
set when its command fails. -/
theorem c8_name_set_mutation_invariant (o : ExecOutcome) (st : NameSet)
    (iqn ip name : String)
    (hi : find_unique_name "iscsi" ip iqn ∉ st)
    (hb : find_unique_name "blk" ip iqn ∉ st) :
    (execFails o = true → (execute_rpc_create_iscsi_bdev o st iqn ip).2.1 = st)
    ∧ (execFails o = false → (execute_rpc_create_iscsi_bdev o st iqn ip).2.1 =
        insert (find_unique_name "iscsi" ip iqn) st)
    ∧ (execFails o = true →
        (execute_rpc_emulator_virtio_blk_device_create o st name ip iqn).2.1 = st)
    ∧ (execFails o = false →
        (execute_rpc_emulator_virtio_blk_device_create o st name ip iqn).2.1 =
        insert (find_unique_name "blk" ip iqn) st)
    ∧ (execFails o = true →
        (execute_rpc_emulator_virtio_blk_device_delete o st name).2.1 = st)
    ∧ (execFails o = false →
        (execute_rpc_emulator_virtio_blk_device_delete o st name).2.1 = st.erase name)
    ∧ (execFails o = true → (execute_rpc_bdev_iscsi_delete o st name).2.1 = st)
    ∧ (execFails o = false →
        (execute_rpc_bdev_iscsi_delete o st name).2.1 = st.erase name) := by
  refine ⟨?_, ?_, ?_, ?_, ?_, ?_, ?_, ?_⟩
  · intro hf
    obtain ⟨m, cr, heq⟩ := create_iscsi_fail o st iqn ip hi hf
    rw [heq]
  · intro hf
    obtain ⟨ec, out, rfl⟩ := execFails_eq_false o hf
    rw [create_iscsi_ok ec out st iqn ip hi]
  · intro hf
    obtain ⟨m, cr, heq⟩ := create_blk_fail o st name ip iqn hb hf
    rw [heq]
  · intro hf
    obtain ⟨ec, out, rfl⟩ := execFails_eq_false o hf
    rw [create_blk_ok ec out st name ip iqn hb]
  · intro hf
    obtain ⟨m, cr, heq⟩ := delete_blk_fail o st name hf
    rw [heq]
  · intro hf
    obtain ⟨ec, out, rfl⟩ := execFails_eq_false o hf
    rw [delete_blk_ok ec out st name]
  · intro hf
    obtain ⟨m, cr, heq⟩ := delete_bdev_fail o st name hf
    rw [heq]
  · intro hf
    obtain ⟨ec, out, rfl⟩ := execFails_eq_false o hf
    rw [delete_bdev_ok ec out st name]

/-- C4: a first successful connect records exactly the pair of derived
names; a second connect for the same identity without an intervening
disconnect fails at step 1 with the name-collision `ValueError` (mapped to
`BadRequest('Command failed with error')`), invokes no external command,
and leaves the name set exactly as the first success left it. -/
theorem c4_duplicate_attach (env1 env2 : Env) (st : NameSet) (iqn ip : String)
    (hi : find_unique_name "iscsi" ip iqn ∉ st)
    (hb : find_unique_name "blk" ip iqn ∉ st)
    (h1 : execFails env1.createBdev = false)
    (h2 : execFails env1.createBlk = false) :
    connect_cloud_disk env1 st iqn ip =
      (.okDict "Cloud disk connected successfully.",
       insert (find_unique_name "blk" ip iqn)
         (insert (find_unique_name "iscsi" ip iqn) st),
       [bdev_iscsi_create_cmd (find_unique_name "iscsi" ip iqn) iqn ip,
        virtio_blk_create_cmd (find_unique_name "blk" ip iqn)
          (find_unique_name "iscsi" ip iqn)])
    ∧ ∃ m, connect_cloud_disk env2
        (insert (find_unique_name "blk" ip iqn)
          (insert (find_unique_name "iscsi" ip iqn) st)) iqn ip =
      (.badRequest "Command failed with error" (.valueError m),
       insert (find_unique_name "blk" ip iqn)
         (insert (find_unique_name "iscsi" ip iqn) st),
       []) := by
  obtain ⟨ec1, out1, hcb⟩ := execFails_eq_false _ h1
  obtain ⟨ec2, out2, hcb2⟩ := execFails_eq_false _ h2
  have hne : find_unique_name "blk" ip iqn ≠ find_unique_name "iscsi" ip iqn :=
    fun h => iscsi_ne_blk ip iqn ip iqn h.symm
  have hblk' : find_unique_name "blk" ip iqn ∉
      insert (find_unique_name "iscsi" ip iqn) st := by
    simp [Finset.mem_insert, hne, hb]
  constructor
  · simp [connect_cloud_disk, hcb, hcb2,
      create_iscsi_ok ec1 out1 st iqn ip hi,
      create_blk_ok ec2 out2 (insert (find_unique_name "iscsi" ip iqn) st)
        (find_unique_name "iscsi" ip iqn) ip iqn hblk']
  · have hcol : find_unique_name "iscsi" ip iqn ∈
        insert (find_unique_name "blk" ip iqn)
          (insert (find_unique_name "iscsi" ip iqn) st) := by
      simp [Finset.mem_insert]
    refine ⟨"Device name '" ++ find_unique_name "iscsi" ip iqn ++
      "' already exists.", ?_⟩
    simp [connect_cloud_disk,
      create_iscsi_collision env2.createBdev _ iqn ip hcol, connectErrResult]

/-- When step 1 of connect succeeds and step 2 returns the given error, the
whole connect reports the step-2 error and finishes with the rollback
delete's resulting state and trace. -/
theorem connect_rollback_eq (env : Env) (st : NameSet) (iqn ip : String)
    (hi : find_unique_name "iscsi" ip iqn ∉ st)
    (ec1 : Nat) (out1 : String) (hcb : env.createBdev = .ran ec1 out1 "")
    (m : String) (cr : CmdResult)
    (heq2 : execute_rpc_emulator_virtio_blk_device_create env.createBlk
        (insert (find_unique_name "iscsi" ip iqn) st)
        (find_unique_name "iscsi" ip iqn) ip iqn =
      (.error (.rpcCommandError m cr),
       insert (find_unique_name "iscsi" ip iqn) st,
       [virtio_blk_create_cmd (find_unique_name "blk" ip iqn)
         (find_unique_name "iscsi" ip iqn)])) :
    connect_cloud_disk env st iqn ip =
      (.badRequest "Cloud disk connection failed." (.rpcCommandError m cr),
       (execute_rpc_bdev_iscsi_delete env.deleteBdev
         (insert (find_unique_name "iscsi" ip iqn) st)
         (find_unique_name "iscsi" ip iqn)).2.1,
       bdev_iscsi_create_cmd (find_unique_name "iscsi" ip iqn) iqn ip ::
         virtio_blk_create_cmd (find_unique_name "blk" ip iqn)
           (find_unique_name "iscsi" ip iqn) ::
         (execute_rpc_bdev_iscsi_delete env.deleteBdev
           (insert (find_unique_name "iscsi" ip iqn) st)
           (find_unique_name "iscsi" ip iqn)).2.2) := by
  simp [connect_cloud_disk, hcb, create_iscsi_ok ec1 out1 st iqn ip hi, heq2,
    connectErrResult]

/-- C1 (amended): when the bdev-create step succeeds and the front-end
create step's command fails, connect invokes the bdev-delete rollback
command, reports the original front-end-create `RpcCommandError` (never the
rollback's own outcome — the reported result is invariant under the
rollback delete's outcome); the iscsi name is released exactly when the
rollback delete itself succeeds, and remains recorded when it fails; the
blk name is never recorded. -/
theorem c1_attach_rollback (env : Env) (st : NameSet) (iqn ip : String)
    (hi : find_unique_name "iscsi" ip iqn ∉ st)
    (hb : find_unique_name "blk" ip iqn ∉ st)
    (h1 : execFails env.createBdev = false)
    (h2 : execFails env.createBlk = true) :
    (connect_cloud_disk env st iqn ip).2.2 =
      [bdev_iscsi_create_cmd (find_unique_name "iscsi" ip iqn) iqn ip,
       virtio_blk_create_cmd (find_unique_name "blk" ip iqn)
         (find_unique_name "iscsi" ip iqn),
       bdev_iscsi_delete_cmd (find_unique_name "iscsi" ip iqn)]
    ∧ (∃ m cr, (connect_cloud_disk env st iqn ip).1 =
        .badRequest "Cloud disk connection failed." (.rpcCommandError m cr))
    ∧ (∀ d : ExecOutcome,
        (connect_cloud_disk ⟨env.createBdev, env.createBlk, env.deleteBlk, d⟩
          st iqn ip).1 = (connect_cloud_disk env st iqn ip).1)
    ∧ (execFails env.deleteBdev = false →
        find_unique_name "iscsi" ip iqn ∉ (connect_cloud_disk env st iqn ip).2.1 ∧
        find_unique_name "blk" ip iqn ∉ (connect_cloud_disk env st iqn ip).2.1)
    ∧ (execFails env.deleteBdev = true →
        find_unique_name "iscsi" ip iqn ∈ (connect_cloud_disk env st iqn ip).2.1 ∧
        find_unique_name "blk" ip iqn ∉ (connect_cloud_disk env st iqn ip).2.1) := by
  obtain ⟨ec1, out1, hcb⟩ := execFails_eq_false _ h1
  have hne : find_unique_name "blk" ip iqn ≠ find_unique_name "iscsi" ip iqn :=
    fun h => iscsi_ne_blk ip iqn ip iqn h.symm
  have hblk' : find_unique_name "blk" ip iqn ∉
      insert (find_unique_name "iscsi" ip iqn) st := by
    simp [Finset.mem_insert, hne, hb]
  obtain ⟨m, cr, heq2⟩ := create_blk_fail env.createBlk
    (insert (find_unique_name "iscsi" ip iqn) st)
    (find_unique_name "iscsi" ip iqn) ip iqn hblk' h2
  have hconn := connect_rollback_eq env st iqn ip hi ec1 out1 hcb m cr heq2
  refine ⟨?_, ⟨m, cr, by rw [hconn]⟩, ?_, ?_, ?_⟩
  · rw [hconn]
    simp [delete_bdev_trace]
  · intro d
    have hconn' := connect_rollback_eq
      ⟨env.createBdev, env.createBlk, env.deleteBlk, d⟩ st iqn ip hi
      ec1 out1 hcb m cr heq2
    rw [hconn, hconn']
  · intro hdel
    obtain ⟨ec3, out3, hdb⟩ := execFails_eq_false _ hdel
    rw [hconn, hdb, delete_bdev_ok]
    refine ⟨Finset.not_mem_erase _ _, ?_⟩
    simp [Finset.mem_erase, Finset.mem_insert, hne, hb]
  · intro hdel
    obtain ⟨m2, cr2, heq3⟩ := delete_bdev_fail env.deleteBdev
      (insert (find_unique_name "iscsi" ip iqn) st)
      (find_unique_name "iscsi" ip iqn) hdel
    rw [hconn, heq3]
    exact ⟨Finset.mem_insert_self _ _, hblk'⟩

/-- C9: when the bdev-create step succeeds, the front-end-create command
fails, and the rollback bdev-delete command itself also fails, the iscsi
name remains in the name set after connect returns the original
front-end-create failure, and the blk name is absent: the identity is left
in the bdev-created state. -/
theorem c9_rollback_failure_residue (env : Env) (st : NameSet) (iqn ip : String)
    (hi : find_unique_name "iscsi" ip iqn ∉ st)
    (hb : find_unique_name "blk" ip iqn ∉ st)
    (h1 : execFails env.createBdev = false)
    (h2 : execFails env.createBlk = true)
    (h3 : execFails env.deleteBdev = true) :
    find_unique_name "iscsi" ip iqn ∈ (connect_cloud_disk env st iqn ip).2.1
    ∧ find_unique_name "blk" ip iqn ∉ (connect_cloud_disk env st iqn ip).2.1
    ∧ ∃ m cr, (connect_cloud_disk env st iqn ip).1 =
        .badRequest "Cloud disk connection failed." (.rpcCommandError m cr) := by
  obtain ⟨ec1, out1, hcb⟩ := execFails_eq_false _ h1
  have hne : find_unique_name "blk" ip iqn ≠ find_unique_name "iscsi" ip iqn :=
    fun h => iscsi_ne_blk ip iqn ip iqn h.symm
  have hblk' : find_unique_name "blk" ip iqn ∉
      insert (find_unique_name "iscsi" ip iqn) st := by
    simp [Finset.mem_insert, hne, hb]
  obtain ⟨m, cr, heq2⟩ := create_blk_fail env.createBlk
    (insert (find_unique_name "iscsi" ip iqn) st)
    (find_unique_name "iscsi" ip iqn) ip iqn hblk' h2
  have hconn := connect_rollback_eq env st iqn ip hi ec1 out1 hcb m cr heq2
  obtain ⟨m2, cr2, heq3⟩ := delete_bdev_fail env.deleteBdev
    (insert (find_unique_name "iscsi" ip iqn) st)
    (find_unique_name "iscsi" ip iqn) h3
  refine ⟨?_, ?_, ⟨m, cr, by rw [hconn]⟩⟩
  · rw [hconn, heq3]
    exact Finset.mem_insert_self _ _
  · rw [hconn, heq3]
    exact hblk'

/-- C2 (amended): when the front-end-delete step succeeds and the
bdev-delete step fails, the name set afterwards is the initial set minus
the blk name — it still holds the iscsi name of the pair and no longer the
blk name — and the operation reports the disconnection failure; however, a
re-issued disconnect for the same identity does not succeed: it fails at
step 1 with the `NotFound` `ValueError` (the blk name is no longer
recorded), invokes no external command, and leaves the set unchanged. -/
theorem c2_detach_partial_failure (env env' : Env) (st : NameSet) (iqn ip : String)
    (hib : find_unique_name "iscsi" ip iqn ∈ st)
    (hbb : find_unique_name "blk" ip iqn ∈ st)
    (h1 : execFails env.deleteBlk = false)
    (h2 : execFails env.deleteBdev = true) :
    (∃ m cr, disconnect_cloud_disk env st iqn ip =
      (.badRequest "Cloud disk disconnection failed." (.rpcCommandError m cr),
       st.erase (find_unique_name "blk" ip iqn),
       [virtio_blk_delete_cmd (find_unique_name "blk" ip iqn),
        bdev_iscsi_delete_cmd (find_unique_name "iscsi" ip iqn)]))
    ∧ find_unique_name "iscsi" ip iqn ∈ st.erase (find_unique_name "blk" ip iqn)
    ∧ find_unique_name "blk" ip iqn ∉ st.erase (find_unique_name "blk" ip iqn)
    ∧ ∃ m', disconnect_cloud_disk env'
        (st.erase (find_unique_name "blk" ip iqn)) iqn ip =
      (.badRequest "Command failed with error." (.valueError m'),
       st.erase (find_unique_name "blk" ip iqn), []) := by
  obtain ⟨ec1, out1, hdb⟩ := execFails_eq_false _ h1
  have hine : find_unique_name "iscsi" ip iqn ∈
      st.erase (find_unique_name "blk" ip iqn) :=
    Finset.mem_erase.mpr ⟨iscsi_ne_blk ip iqn ip iqn, hib⟩
  obtain ⟨m, cr, heq⟩ := delete_bdev_fail env.deleteBdev
    (st.erase (find_unique_name "blk" ip iqn))
    (find_unique_name "iscsi" ip iqn) h2
  refine ⟨⟨m, cr, ?_⟩, hine, Finset.not_mem_erase _ _, ?_⟩
  · simp [disconnect_cloud_disk, check_blk_name, hbb, hdb,
      delete_blk_ok, check_iscsi_name, hine, heq, disconnectErrResult]
  · refine ⟨"Block device name '" ++ find_unique_name "blk" ip iqn ++
      "' does not exist.", ?_⟩
    simp [disconnect_cloud_disk, check_blk_name, disconnectErrResult]

set_option maxRecDepth 100000 in
/-- C2 counterexample: at a concrete partially-failed detach (front-end
delete succeeded, bdev delete failed), the set afterwards holds exactly the
iscsi name — yet the re-issued disconnect for the same identity does not
succeed as the claim states: it reports a failure without invoking any
command, because step 1 resolves the blk name, which is gone. -/
theorem c2_counterexample :
    (disconnect_cloud_disk
        ⟨.ran 0 "" "", .ran 0 "" "", .ran 0 "" "", .ran 0 "" "disk busy"⟩
        {find_unique_name "iscsi" "ip1" "iqn1", find_unique_name "blk" "ip1" "iqn1"}
        "iqn1" "ip1").2.1 = {find_unique_name "iscsi" "ip1" "iqn1"}
    ∧ ((disconnect_cloud_disk
        ⟨.ran 0 "" "", .ran 0 "" "", .ran 0 "" "", .ran 0 "" ""⟩
        {find_unique_name "iscsi" "ip1" "iqn1"} "iqn1" "ip1").1 ≠
        .okDict "Cloud disk disconnected successfully.")
    ∧ (disconnect_cloud_disk
        ⟨.ran 0 "" "", .ran 0 "" "", .ran 0 "" "", .ran 0 "" ""⟩
        {find_unique_name "iscsi" "ip1" "iqn1"} "iqn1" "ip1").2.2 = []
    ∧ (disconnect_cloud_disk
        ⟨.ran 0 "" "", .ran 0 "" "", .ran 0 "" "", .ran 0 "" ""⟩
        {find_unique_name "iscsi" "ip1" "iqn1"} "iqn1" "ip1").2.1 =
        {find_unique_name "iscsi" "ip1" "iqn1"} := by
  refine ⟨by decide, by decide, by decide, by decide⟩

/-- C1 counterexample: at a concrete attach where the bdev-create step
succeeds, the front-end-create command fails, and the rollback bdev-delete
also fails, the rollback delete is invoked but the iscsi name is still in
the name set afterwards — contradicting the claim that the set then
contains neither name. -/
theorem c1_counterexample :
    execFails (ExecOutcome.ran 0 "" "") = false
    ∧ execFails (ExecOutcome.ran 0 "" "front-end create failed") = true
    ∧ bdev_iscsi_delete_cmd (find_unique_name "iscsi" "ip1" "iqn1") ∈
        (connect_cloud_disk
          ⟨.ran 0 "" "", .ran 0 "" "front-end create failed",
           .ran 0 "" "", .ran 0 "" "rollback delete failed"⟩
          ∅ "iqn1" "ip1").2.2
    ∧ find_unique_name "iscsi" "ip1" "iqn1" ∈
        (connect_cloud_disk
          ⟨.ran 0 "" "", .ran 0 "" "front-end create failed",
           .ran 0 "" "", .ran 0 "" "rollback delete failed"⟩
          ∅ "iqn1" "ip1").2.1 := by
  decide

/-! ## Witnesses: each hypothesis-bearing claim theorem applied at a
concrete input. -/

/-- Witness for C1 (amended) at a concrete input. -/
theorem c1_attach_rollback_witness :
    (connect_cloud_disk
        ⟨.ran 0 "" "", .ran 0 "" "boom", .ran 0 "" "", .ran 0 "" "rbfail"⟩
        ∅ "iqnw1" "ipw1").2.2 =
      [bdev_iscsi_create_cmd (find_unique_name "iscsi" "ipw1" "iqnw1") "iqnw1" "ipw1",
       virtio_blk_create_cmd (find_unique_name "blk" "ipw1" "iqnw1")
         (find_unique_name "iscsi" "ipw1" "iqnw1"),
       bdev_iscsi_delete_cmd (find_unique_name "iscsi" "ipw1" "iqnw1")]
    ∧ (∃ m cr, (connect_cloud_disk
        ⟨.ran 0 "" "", .ran 0 "" "boom", .ran 0 "" "", .ran 0 "" "rbfail"⟩
        ∅ "iqnw1" "ipw1").1 =
        .badRequest "Cloud disk connection failed." (.rpcCommandError m cr))
    ∧ (∀ d : ExecOutcome,
        (connect_cloud_disk ⟨.ran 0 "" "", .ran 0 "" "boom", .ran 0 "" "", d⟩
          ∅ "iqnw1" "ipw1").1 =
        (connect_cloud_disk
          ⟨.ran 0 "" "", .ran 0 "" "boom", .ran 0 "" "", .ran 0 "" "rbfail"⟩
          ∅ "iqnw1" "ipw1").1)
    ∧ (execFails (.ran 0 "" "rbfail") = false →
        find_unique_name "iscsi" "ipw1" "iqnw1" ∉ (connect_cloud_disk
          ⟨.ran 0 "" "", .ran 0 "" "boom", .ran 0 "" "", .ran 0 "" "rbfail"⟩
          ∅ "iqnw1" "ipw1").2.1 ∧
        find_unique_name "blk" "ipw1" "iqnw1" ∉ (connect_cloud_disk
          ⟨.ran 0 "" "", .ran 0 "" "boom", .ran 0 "" "", .ran 0 "" "rbfail"⟩
          ∅ "iqnw1" "ipw1").2.1)
    ∧ (execFails (.ran 0 "" "rbfail") = true →
        find_unique_name "iscsi" "ipw1" "iqnw1" ∈ (connect_cloud_disk
          ⟨.ran 0 "" "", .ran 0 "" "boom", .ran 0 "" "", .ran 0 "" "rbfail"⟩
          ∅ "iqnw1" "ipw1").2.1 ∧
        find_unique_name "blk" "ipw1" "iqnw1" ∉ (connect_cloud_disk
          ⟨.ran 0 "" "", .ran 0 "" "boom", .ran 0 "" "", .ran 0 "" "rbfail"⟩
          ∅ "iqnw1" "ipw1").2.1) :=
  c1_attach_rollback
    ⟨.ran 0 "" "", .ran 0 "" "boom", .ran 0 "" "", .ran 0 "" "rbfail"⟩
    ∅ "iqnw1" "ipw1" (by decide) (by decide) (by decide) (by decide)

/-- Witness for C9 at a concrete input. -/
theorem c9_rollback_failure_residue_witness :
    find_unique_name "iscsi" "ipw2" "iqnw2" ∈ (connect_cloud_disk
      ⟨.ran 0 "" "", .ran 0 "" "boom2", .ran 0 "" "", .raised "launch error"⟩
      ∅ "iqnw2" "ipw2").2.1
    ∧ find_unique_name "blk" "ipw2" "iqnw2" ∉ (connect_cloud_disk
      ⟨.ran 0 "" "", .ran 0 "" "boom2", .ran 0 "" "", .raised "launch error"⟩
      ∅ "iqnw2" "ipw2").2.1
    ∧ ∃ m cr, (connect_cloud_disk
      ⟨.ran 0 "" "", .ran 0 "" "boom2", .ran 0 "" "", .raised "launch error"⟩
      ∅ "iqnw2" "ipw2").1 =
        .badRequest "Cloud disk connection failed." (.rpcCommandError m cr) :=
  c9_rollback_failure_residue
    ⟨.ran 0 "" "", .ran 0 "" "boom2", .ran 0 "" "", .raised "launch error"⟩
    ∅ "iqnw2" "ipw2" (by decide) (by decide) (by decide) (by decide) (by decide)

/-- Witness for C2 (amended) at a concrete input. -/
theorem c2_detach_partial_failure_witness :
    (∃ m cr, disconnect_cloud_disk
      ⟨.ran 0 "" "", .ran 0 "" "", .ran 0 "" "", .ran 0 "" "busy"⟩
      {find_unique_name "iscsi" "ipw3" "iqnw3", find_unique_name "blk" "ipw3" "iqnw3"}
      "iqnw3" "ipw3" =
      (.badRequest "Cloud disk disconnection failed." (.rpcCommandError m cr),
       Finset.erase
         {find_unique_name "iscsi" "ipw3" "iqnw3", find_unique_name "blk" "ipw3" "iqnw3"}
         (find_unique_name "blk" "ipw3" "iqnw3"),
       [virtio_blk_delete_cmd (find_unique_name "blk" "ipw3" "iqnw3"),
        bdev_iscsi_delete_cmd (find_unique_name "iscsi" "ipw3" "iqnw3")]))
    ∧ find_unique_name "iscsi" "ipw3" "iqnw3" ∈
        Finset.erase
          {find_unique_name "iscsi" "ipw3" "iqnw3", find_unique_name "blk" "ipw3" "iqnw3"}
          (find_unique_name "blk" "ipw3" "iqnw3")
    ∧ find_unique_name "blk" "ipw3" "iqnw3" ∉
        Finset.erase
          {find_unique_name "iscsi" "ipw3" "iqnw3", find_unique_name "blk" "ipw3" "iqnw3"}
          (find_unique_name "blk" "ipw3" "iqnw3")
    ∧ ∃ m', disconnect_cloud_disk
        ⟨.ran 0 "" "", .ran 0 "" "", .ran 0 "" "", .ran 0 "" ""⟩
        (Finset.erase
          {find_unique_name "iscsi" "ipw3" "iqnw3", find_unique_name "blk" "ipw3" "iqnw3"}
          (find_unique_name "blk" "ipw3" "iqnw3")) "iqnw3" "ipw3" =
      (.badRequest "Command failed with error." (.valueError m'),
       Finset.erase
         {find_unique_name "iscsi" "ipw3" "iqnw3", find_unique_name "blk" "ipw3" "iqnw3"}
         (find_unique_name "blk" "ipw3" "iqnw3"), []) :=
  c2_detach_partial_failure
    ⟨.ran 0 "" "", .ran 0 "" "", .ran 0 "" "", .ran 0 "" "busy"⟩
    ⟨.ran 0 "" "", .ran 0 "" "", .ran 0 "" "", .ran 0 "" ""⟩
    {find_unique_name "iscsi" "ipw3" "iqnw3", find_unique_name "blk" "ipw3" "iqnw3"}
    "iqnw3" "ipw3" (by decide) (by decide) (by decide) (by decide)

/-- Witness for C4 at a concrete input. -/
theorem c4_duplicate_attach_witness :
    connect_cloud_disk
      ⟨.ran 0 "" "", .ran 0 "" "", .ran 0 "" "", .ran 0 "" ""⟩ ∅ "iqnw4" "ipw4" =
      (.okDict "Cloud disk connected successfully.",
       insert (find_unique_name "blk" "ipw4" "iqnw4")
         (insert (find_unique_name "iscsi" "ipw4" "iqnw4") ∅),
       [bdev_iscsi_create_cmd (find_unique_name "iscsi" "ipw4" "iqnw4") "iqnw4" "ipw4",
        virtio_blk_create_cmd (find_unique_name "blk" "ipw4" "iqnw4")
          (find_unique_name "iscsi" "ipw4" "iqnw4")])
    ∧ ∃ m, connect_cloud_disk
        ⟨.ran 0 "" "", .ran 0 "" "", .ran 0 "" "", .ran 0 "" ""⟩
        (insert (find_unique_name "blk" "ipw4" "iqnw4")
          (insert (find_unique_name "iscsi" "ipw4" "iqnw4") ∅)) "iqnw4" "ipw4" =
      (.badRequest "Command failed with error" (.valueError m),
       insert (find_unique_name "blk" "ipw4" "iqnw4")
         (insert (find_unique_name "iscsi" "ipw4" "iqnw4") ∅),
       []) :=
  c4_duplicate_attach
    ⟨.ran 0 "" "", .ran 0 "" "", .ran 0 "" "", .ran 0 "" ""⟩
    ⟨.ran 0 "" "", .ran 0 "" "", .ran 0 "" "", .ran 0 "" ""⟩
    ∅ "iqnw4" "ipw4" (by decide) (by decide) (by decide) (by decide)

/-- Witness for C5 at a concrete input. -/
theorem c5_disconnect_unknown_witness :
    ∃ m, disconnect_cloud_disk
      ⟨.ran 0 "" "", .ran 0 "" "", .ran 0 "" "", .ran 0 "" ""⟩ ∅ "iqnw5" "ipw5" =
      (.badRequest "Command failed with error." (.valueError m), ∅, []) :=
  c5_disconnect_unknown
    ⟨.ran 0 "" "", .ran 0 "" "", .ran 0 "" "", .ran 0 "" ""⟩
    ∅ "iqnw5" "ipw5" (by decide) (by decide)

/-- Witness for C7 at a concrete input (a run with non-zero exit code and
non-empty error stream). -/
theorem c7_executor_failure_classification_witness :
    ((∃ e, (execute_rpc_create_iscsi_bdev (.ran 7 "so" "se") ∅ "iqnw6" "ipw6").1 =
        .error e) ↔ execFails (.ran 7 "so" "se") = true)
    ∧ ((∃ e, (execute_rpc_emulator_virtio_blk_device_create (.ran 7 "so" "se")
        ∅ "namew6" "ipw6" "iqnw6").1 = .error e) ↔
        execFails (.ran 7 "so" "se") = true)
    ∧ ((∃ e, (execute_rpc_emulator_virtio_blk_device_delete (.ran 7 "so" "se")
        ∅ "namew6").1 = .error e) ↔ execFails (.ran 7 "so" "se") = true)
    ∧ ((∃ e, (execute_rpc_bdev_iscsi_delete (.ran 7 "so" "se") ∅ "namew6").1 =
        .error e) ↔ execFails (.ran 7 "so" "se") = true)
    ∧ (∀ e, (execute_rpc_create_iscsi_bdev (.ran 7 "so" "se") ∅ "iqnw6" "ipw6").1 =
        .error e → ∃ m cr, e = .rpcCommandError m cr)
    ∧ (∀ e, (execute_rpc_bdev_iscsi_delete (.ran 7 "so" "se") ∅ "namew6").1 =
        .error e → ∃ m cr, e = .rpcCommandError m cr)
    ∧ (∃ m, (execute_rpc_bdev_iscsi_delete (.raised "lw6") ∅ "namew6").1 =
        .error (.rpcCommandError m ⟨"", "lw6"⟩))
    ∧ execFails (.ran 1 "o1" "sw") = execFails (.ran 2 "o2" "sw") :=
  c7_executor_failure_classification (.ran 7 "so" "se") ∅
    "iqnw6" "ipw6" "namew6" "lw6" "o1" "o2" "sw" 1 2 (by decide) (by decide)

/-- Witness for C8 at a concrete input (a failing outcome). -/
theorem c8_name_set_mutation_invariant_witness :
    (execFails (.ran 0 "" "bad") = true →
      (execute_rpc_create_iscsi_bdev (.ran 0 "" "bad") ∅ "iqnw7" "ipw7").2.1 = ∅)
    ∧ (execFails (.ran 0 "" "bad") = false →
      (execute_rpc_create_iscsi_bdev (.ran 0 "" "bad") ∅ "iqnw7" "ipw7").2.1 =
        insert (find_unique_name "iscsi" "ipw7" "iqnw7") ∅)
    ∧ (execFails (.ran 0 "" "bad") = true →
      (execute_rpc_emulator_virtio_blk_device_create (.ran 0 "" "bad")
        ∅ "namew7" "ipw7" "iqnw7").2.1 = ∅)
    ∧ (execFails (.ran 0 "" "bad") = false →
      (execute_rpc_emulator_virtio_blk_device_create (.ran 0 "" "bad")
        ∅ "namew7" "ipw7" "iqnw7").2.1 =
        insert (find_unique_name "blk" "ipw7" "iqnw7") ∅)
    ∧ (execFails (.ran 0 "" "bad") = true →
      (execute_rpc_emulator_virtio_blk_device_delete (.ran 0 "" "bad")
        ∅ "namew7").2.1 = ∅)
    ∧ (execFails (.ran 0 "" "bad") = false →
      (execute_rpc_emulator_virtio_blk_device_delete (.ran 0 "" "bad")
        ∅ "namew7").2.1 = Finset.erase ∅ "namew7")
    ∧ (execFails (.ran 0 "" "bad") = true →
      (execute_rpc_bdev_iscsi_delete (.ran 0 "" "bad") ∅ "namew7").2.1 = ∅)
    ∧ (execFails (.ran 0 "" "bad") = false →
      (execute_rpc_bdev_iscsi_delete (.ran 0 "" "bad") ∅ "namew7").2.1 =
        Finset.erase ∅ "namew7") :=
  c8_name_set_mutation_invariant (.ran 0 "" "bad") ∅ "iqnw7" "ipw7" "namew7"
    (by decide) (by decide)

end CloudDisk

